import Mathlib

/-!
Verification development for the sql-query-agent repository: a shallow
embedding of the retry/self-correction workflow (graph nodes, routing
conditions, and the validator / executor / schema-analyzer / error-analyzer /
result-formatter tools), together with theorems settling the specified
properties. External effects (the LLM call, the SQLite engine, sqlparse) are
modelled as oracles supplied to the embedded functions; everything else is
translated directly from the Python source.
-/

set_option maxRecDepth 4000

/-! ## Python string primitives

The Python source relies on `str.upper`, `str.lower`, `str.strip`,
`str.replace`, `str.startswith` and the `in` substring test. We model them
over `List Char` (each string is its character sequence) so that every
operation is executable and kernel-reducible. ASCII case mapping is used,
which agrees with Python on all strings the source manipulates. -/

/-- Model of Python whitespace stripping on a character list: drop leading and
trailing whitespace. -/
def stripChars (l : List Char) : List Char :=
  ((l.dropWhile Char.isWhitespace).reverse.dropWhile Char.isWhitespace).reverse

/-- Model of Python `str.strip()`. -/
def pyStrip (s : String) : String :=
  String.mk (stripChars s.toList)

/-- Model of Python `str.upper()` (ASCII). -/
def pyUpper (s : String) : String :=
  String.mk (s.toList.map Char.toUpper)

/-- Model of Python `str.lower()` (ASCII). -/
def pyLower (s : String) : String :=
  String.mk (s.toList.map Char.toLower)

/-- Infix (substring) test on character lists. -/
def listIsInfix (pat : List Char) : List Char → Bool
  | [] => pat.isEmpty
  | c :: cs => pat.isPrefixOf (c :: cs) || listIsInfix pat cs

/-- Model of the Python substring test `pat in s`. -/
def strContainsSub (s pat : String) : Bool :=
  listIsInfix pat.toList s.toList

/-- Model of Python `s.startswith(pre)`. -/
def pyStartswith (s pre : String) : Bool :=
  pre.toList.isPrefixOf s.toList

/-- Model of Python truthiness of a string (`if s:`): true iff nonempty. -/
def pyTruthy (s : String) : Bool :=
  !s.toList.isEmpty

/-- Replace every occurrence of the pattern `p :: ps` in a character list by
`rep`, scanning left to right (model of Python `str.replace`).  The first
argument is fuel bounding the number of scanned positions; each step consumes
at least one character, so fuel equal to the list length is always enough.
Structural recursion on the fuel keeps the function kernel-reducible. -/
def replaceAux (p : Char) (ps rep : List Char) : Nat → List Char → List Char
  | _, [] => []
  | 0, l => l
  | fuel + 1, c :: cs =>
    if (p :: ps).isPrefixOf (c :: cs) then
      rep ++ replaceAux p ps rep fuel (cs.drop ps.length)
    else
      c :: replaceAux p ps rep fuel cs

/-- Model of Python `s.replace(pat, rep)`.  The source only calls it with the
nonempty patterns three-backticks-sql and three-backticks; the empty-pattern
case (where Python would interleave `rep`) is left as the identity. -/
def strReplace (s pat rep : String) : String :=
  match pat.toList with
  | [] => s
  | p :: ps => String.mk (replaceAux p ps rep.toList s.toList.length s.toList)

/-! ## StatementValidator (src/sql_query_agent/tools/sql_validator.py)

`sqlparse.parse` together with `statement.get_type()` is an external library;
it is modelled as an oracle `parse : String → Except String (List String)`
returning the list of statement types of the parsed statements (`.error e`
models an exception raised inside the `try` block, `.ok []` models a falsy
parse result). -/

namespace SQLValidator

/-- The fixed denylist from `SQLValidator.__init__`. -/
def dangerous_keywords : List String :=
  ["DROP", "DELETE", "TRUNCATE", "ALTER",
   "CREATE", "INSERT", "UPDATE", "GRANT",
   "REVOKE", "EXEC", "EXECUTE"]

/-- Embedding of `SQLValidator.validate`: empty check, then the case
insensitive substring denylist scan (first keyword in list order wins), then
the parse / statement-type checks. -/
def validate (parse : String → Except String (List String))
    (sql_query : String) : Bool × String :=
  if (stripChars sql_query.toList).isEmpty then
    (false, "Empty query")
  else
    match dangerous_keywords.find? (fun kw => strContainsSub (pyUpper sql_query) kw) with
    | some keyword =>
      (false, "Dangerous operation detected: " ++ keyword ++
        ". Only SELECT queries are allowed.")
    | none =>
      match parse sql_query with
      | .error e => (false, "SQL parsing error: " ++ e)
      | .ok [] => (false, "Unable to parse SQL query")
      | .ok (t :: _) =>
        if t != "SELECT" then
          (false, "Only SELECT queries are allowed. Found: " ++ t)
        else
          (true, "")

end SQLValidator

/-! ## ResultFormatter (src/sql_query_agent/utils/result_formatter.py) -/

/-- A result row as the executor's node wrapper produces it: a Python dict
from column name to cell value (cells are modelled as strings; their contents
never matter to the workflow). -/
abbrev RowDict := List (String × String)

/-- The dict returned by `ResultFormatter.format_results`.  Keys that the
empty-input branch omits (`column_count`, `columns`, `truncated`) are modelled
as `Option` fields with `none` meaning "key absent".  The `dataframe` entry (a
pandas object rebuilt from `data`) is not modelled. -/
structure FormattedResult where
  success : Bool
  row_count : Nat
  column_count : Option Nat
  columns : Option (List String)
  data : List RowDict
  truncated : Option Bool
  message : String
deriving Repr, DecidableEq

/-- Column labels of `pandas.DataFrame(results)`: the union of the row dicts'
keys in order of first appearance. -/
def dfColumns (results : List RowDict) : List String :=
  results.foldl (fun acc row => acc ++ ((row.map Prod.fst).filter (fun k => !acc.contains k))) []

/-- Python `str(x)` on an optional integer. -/
def pyOptNatStr : Option Nat → String
  | some m => toString m
  | none => "None"

namespace ResultFormatter

/-- Embedding of `ResultFormatter._create_summary_message`. -/
def create_summary_message (row_count : Nat) (truncated : Bool)
    (max_rows : Option Nat) : String :=
  if row_count = 0 then
    "Query executed successfully but returned no results."
  else if row_count = 1 then
    "Query returned 1 row."
  else if truncated then
    "Query returned " ++ toString row_count ++ " rows. Displaying first " ++
      pyOptNatStr max_rows ++ " rows."
  else
    "Query returned " ++ toString row_count ++ " rows."

/-- Embedding of `ResultFormatter.format_results`.  `max_rows = none` models
the Python default `None`; `some 0` is falsy in Python, hence no truncation. -/
def format_results (results : List RowDict) (query : String)
    (max_rows : Option Nat) : FormattedResult :=
  if results.isEmpty then
    { success := true, row_count := 0,
      message := "Query executed successfully but returned no results.",
      data := [], column_count := none, columns := none, truncated := none }
  else
    let cols := dfColumns results
    let truncated : Bool :=
      match max_rows with
      | some m => decide (m ≠ 0 ∧ m < results.length)
      | none => false
    { success := true,
      row_count := results.length,
      column_count := some cols.length,
      columns := some cols,
      data :=
        match max_rows with
        | none => results
        | some 0 => results
        | some m => results.take m,
      truncated := some truncated,
      message := create_summary_message results.length truncated max_rows }

end ResultFormatter

/-! ## StatementExecutor (src/sql_query_agent/tools/sql_executor.py)

The SQLite engine is an oracle: `dbExists` models `os.path.exists(db_path)`
and `run` models connect + execute + fetchall (an `.error` is an exception
raised by those calls; `sqliteError` is a `sqlite3.Error`, `otherError` any
other exception).  Connection lifecycle events are recorded in order so that
session discipline can be stated: the source has no try/finally, so
`conn.close()` is only reached on the straight-line success path. -/

inductive DBErr where
  | sqliteError (msg : String)
  | otherError (msg : String)
deriving Repr, DecidableEq

/-- Raw outcome of `cursor.execute` + `cursor.fetchall` + `cursor.description`. -/
structure QueryOut where
  columns : List String
  rows : List (List String)
deriving Repr, DecidableEq

/-- Oracle for the SQLite database behind `SQLExecutor`. -/
structure DBOracle where
  dbExists : Bool
  run : String → Except DBErr QueryOut

/-- Connection lifecycle events of one `execute` call. -/
inductive ConnEvent where
  | openConn (readOnly : Bool)
  | closeConn
deriving Repr, DecidableEq

/-- The dict returned by `SQLExecutor.execute`. -/
structure ExecOut where
  columns : List String
  rows : List (List String)
  row_count : Nat
deriving Repr, DecidableEq

namespace SQLExecutor

/-- Embedding of `SQLExecutor.execute`, returning the result (or the raised
exception's message) together with the ordered connection events.  The
connect call uses `mode=ro`, recorded as `openConn true`; on the failure path
the function raises out of the `try` block before ever reaching
`conn.close()`, so no `closeConn` event is emitted there. -/
def execute (db : DBOracle) (db_path : String) (sql_query : String) :
    Except String ExecOut × List ConnEvent :=
  if !db.dbExists then
    (.error ("Database not found: " ++ db_path), [])
  else
    match db.run sql_query with
    | .ok out =>
      (.ok { columns := out.columns, rows := out.rows, row_count := out.rows.length },
       [.openConn true, .closeConn])
    | .error (.sqliteError e) =>
      (.error ("Database error: " ++ e), [.openConn true])
    | .error (.otherError e) =>
      (.error ("Execution error: " ++ e), [.openConn true])

end SQLExecutor

/-! ## SchemaProvider (src/sql_query_agent/tools/schema_analyzer.py) -/

/-- One column description as stored in the agent state's schema. -/
structure ColumnInfo where
  name : String
  type : String
  not_null : Bool
  primary_key : Bool
deriving Repr, DecidableEq

/-- A schema: table name to column list, in iteration order. -/
abbrev Schema := List (String × List ColumnInfo)

/-- One row of `PRAGMA table_info` (cid, name, type, notnull, dflt_value, pk). -/
structure RawColumn where
  cid : Nat
  name : String
  type : String
  notnull : Nat
  dflt_value : Option String
  pk : Nat
deriving Repr, DecidableEq

/-- Oracle for the database behind `SchemaAnalyzer`: `dbExists` models
`os.path.exists`, `read` models the sqlite_master query plus the per-table
PRAGMA calls (an `.error` is a raised `sqlite3.Error`). -/
structure SchemaDB where
  dbExists : Bool
  read : Except String (List (String × List RawColumn))

namespace SchemaAnalyzer

/-- Embedding of `SchemaAnalyzer.get_schema`: missing database gives the empty
mapping, and a `sqlite3.Error` while reading is caught and also gives the
empty mapping.  The function is total: it cannot raise. -/
def get_schema (db : SchemaDB) : Schema :=
  if !db.dbExists then
    []
  else
    match db.read with
    | .error _ => []
    | .ok tables =>
      tables.map (fun tc =>
        (tc.1, tc.2.map (fun col =>
          { name := col.name, type := col.type,
            not_null := decide (col.notnull ≠ 0),
            primary_key := decide (col.pk ≠ 0) })))

end SchemaAnalyzer

/-! ## ErrorAnalyzer (src/sql_query_agent/utils/error_analyzer.py) -/

namespace ErrorAnalyzer

/-- Embedding of `ErrorAnalyzer._classify_error` (ordered, case-insensitive
substring matches; first match wins). -/
def classify_error (error : String) : String :=
  let el := pyLower error
  if strContainsSub el "no such table" then "TABLE_NOT_FOUND"
  else if strContainsSub el "no such column" then "COLUMN_NOT_FOUND"
  else if strContainsSub el "syntax error" then "SYNTAX_ERROR"
  else if strContainsSub el "ambiguous column" then "AMBIGUOUS_COLUMN"
  else if strContainsSub el "datatype mismatch" || strContainsSub el "type mismatch" then
    "TYPE_MISMATCH"
  else if strContainsSub el "constraint" then "CONSTRAINT_VIOLATION"
  else if strContainsSub el "function" && strContainsSub el "does not exist" then
    "FUNCTION_NOT_SUPPORTED"
  else "UNKNOWN_ERROR"

/-- The fixed suggestion table of `ErrorAnalyzer._suggest_fix`, in insertion
order. -/
def suggestions : List (String × String) :=
  [("no such table", "Verify the table name exists in the database schema. Check for typos or case sensitivity."),
   ("no such column", "Check that the column name is spelled correctly and exists in the specified table."),
   ("syntax error", "Review SQL syntax. Common issues: missing commas, incorrect keyword order, or unmatched parentheses."),
   ("ambiguous column", "Prefix column names with table names or aliases to clarify which table the column belongs to."),
   ("datatype mismatch", "Ensure data types match between compared values. Cast values if necessary."),
   ("type mismatch", "Ensure data types match between compared values. Cast values if necessary."),
   ("constraint", "Check for constraint violations like NOT NULL, UNIQUE, or FOREIGN KEY constraints."),
   ("function", "The function may not be supported in this database. Check database-specific function syntax (e.g., SQLite vs PostgreSQL).")]

/-- Embedding of `ErrorAnalyzer._suggest_fix`: first suggestion whose key is a
substring of the lower-cased error text. -/
def suggest_fix (error : String) : String :=
  let el := pyLower error
  match suggestions.find? (fun p => strContainsSub el p.1) with
  | some p => p.2
  | none => "Review the error message and SQL query carefully. Consult database documentation if needed."

/-- The dict returned by `ErrorAnalyzer.analyze_error`. -/
structure ErrorAnalysis where
  error_type : String
  error_message : String
  suggested_fix : String
  problematic_query : String
deriving Repr, DecidableEq

/-- Embedding of `ErrorAnalyzer.analyze_error`. -/
def analyze_error (error : String) (sql_query : String) : ErrorAnalysis :=
  { error_type := classify_error error,
    error_message := error,
    suggested_fix := suggest_fix error,
    problematic_query := sql_query }

/-- Strip a case-insensitive literal pattern from the front of a character
list, returning the remainder on a match. -/
def stripLitCI : List Char → List Char → Option (List Char)
  | [], rest => some rest
  | _ :: _, [] => none
  | p :: ps, c :: cs =>
    if p.toLower = c.toLower then stripLitCI ps cs else none

/-- Find the first case-insensitive occurrence of a literal pattern, returning
the characters after it. -/
def searchCI (pat : List Char) : List Char → Option (List Char)
  | [] => stripLitCI pat []
  | c :: cs =>
    match stripLitCI pat (c :: cs) with
    | some rest => some rest
    | none => searchCI pat cs

/-- Regex word character (backslash-w). -/
def isWordChar (c : Char) : Bool := c.isAlphanum || c == '_'

/-- Model of `re.search(pat + backslash-s-star + capture of word chars, s,
IGNORECASE)`: the literal is located case-insensitively, whitespace after it
is skipped, and a nonempty run of word characters is captured.  (The model
tries the first occurrence of the literal only; the source's regex would
backtrack to later occurrences, a case no repository input exercises.) -/
def captureWordAfter (pat : String) (s : String) : Option String :=
  match searchCI pat.toList s.toList with
  | none => none
  | some rest =>
    let w := (rest.dropWhile Char.isWhitespace).takeWhile isWordChar
    if w.isEmpty then none else some (String.mk w)

/-- Embedding of `ErrorAnalyzer.extract_problem_area`: the three extraction
patterns, tried in order. -/
def extract_problem_area (error : String) (sql_query : String) : Option String :=
  match captureWordAfter "no such table:" error with
  | some t => some ("Table: " ++ t)
  | none =>
    match captureWordAfter "no such column:" error with
    | some c => some ("Column: " ++ c)
    | none =>
      match captureWordAfter "no such function:" error with
      | some f => some ("Function: " ++ f)
      | none => none

end ErrorAnalyzer

/-! ## Agent state (src/sql_query_agent/graph/state.py)

LangGraph threads a dict-shaped state through the nodes; keys may be absent
until some node writes them.  Every maybe-absent key is an `Option` field with
`none` meaning "absent or None" (the source reads them with `state.get(key,
default)`, and for `execution_error` Python treats the absent key and an
explicit `None` identically at every use site). -/

/-- The value stored under `formatted_result`: the terminal success node
stores the formatter's dict, the clarification node stores a plain string. -/
inductive FormattedValue where
  | res (r : FormattedResult)
  | text (s : String)
deriving Repr, DecidableEq

/-- The dict stored under `execution_result` by the execute node. -/
structure ExecResult where
  columns : List String
  rows : List (List String)
  data : List RowDict
  row_count : Nat
deriving Repr, DecidableEq

/-- Embedding of `SQLAgentState`. -/
structure SQLAgentState where
  user_query : String
  sql_query : Option String
  execution_result : Option ExecResult
  execution_error : Option String
  attempt : Option Nat
  max_attempts : Option Nat
  previous_errors : Option (List String)
  previous_queries : Option (List String)
  formatted_result : Option FormattedValue
  success : Option Bool
  schema : Option Schema
deriving Repr, DecidableEq

/-! ## Graph nodes (src/sql_query_agent/graph/nodes.py)

Each node function returns a partial update that LangGraph merges into the
state; the embedding applies the merge directly.  External calls appear as
parameters: the schema read of `parse_intent`, the LLM output consumed by
`generate_sql`, the executor outcome consumed by `execute_sql`, and the
sqlparse oracle used by `validate_sql`. -/

namespace Nodes

/-- Embedding of `parse_intent`: fetch the schema when the current one is
absent or empty, and initialize `attempt`, `max_attempts`, the two histories
and `success` only when the key is absent. -/
def parse_intent (get_schema_result : Schema) (state : SQLAgentState) : SQLAgentState :=
  let schema0 := state.schema.getD []
  let schema := if schema0.isEmpty then get_schema_result else schema0
  { state with
    schema := some schema,
    attempt := some (state.attempt.getD 1),
    max_attempts := some (state.max_attempts.getD 3),
    previous_errors := some (state.previous_errors.getD []),
    previous_queries := some (state.previous_queries.getD []),
    success := some (state.success.getD false) }

/-- The markdown cleanup `generate_sql` applies to the raw LLM output:
`response.content.strip()`, then the two fence replacements, then a final
strip. -/
def clean_sql (raw : String) : String :=
  pyStrip (strReplace (strReplace (pyStrip raw) "```sql" "") "```" "")

/-- Embedding of `generate_sql`: store the cleaned LLM output and write the
current attempt value back unchanged.  (Prompt construction only feeds the
external LLM, which the `llm_output` parameter models.) -/
def generate_sql (llm_output : String) (state : SQLAgentState) : SQLAgentState :=
  let attempt := state.attempt.getD 1
  { state with
    sql_query := some (clean_sql llm_output),
    attempt := some attempt }

/-- Embedding of `validate_sql`: on failure, record the prefixed message and
the failed SQL in the parallel histories, bump `attempt`, clear `success`; on
success, clear `execution_error`. -/
def validate_sql (parse : String → Except String (List String))
    (state : SQLAgentState) : SQLAgentState :=
  let sql_query := state.sql_query.getD ""
  let attempt := state.attempt.getD 1
  let v := SQLValidator.validate parse sql_query
  if v.1 then
    { state with execution_error := none }
  else
    { state with
      execution_error := some ("Syntax Error: " ++ v.2),
      previous_errors := some (state.previous_errors.getD [] ++ ["Syntax Error: " ++ v.2]),
      previous_queries := some (state.previous_queries.getD [] ++ [sql_query]),
      attempt := some (attempt + 1),
      success := some false }

/-- Embedding of `execute_sql`: the parameter is the outcome of
`executor.execute(sql_query)` (`.error` carries `str(e)` of the raised
exception).  Success stores the result dict (with the rows re-zipped into
dicts) and sets `success`; failure records history, bumps `attempt`, clears
`success`. -/
def execute_sql (exec_outcome : Except String ExecOut)
    (state : SQLAgentState) : SQLAgentState :=
  let sql_query := state.sql_query.getD ""
  let attempt := state.attempt.getD 1
  match exec_outcome with
  | .ok result =>
    { state with
      execution_result := some
        { columns := result.columns,
          rows := result.rows,
          data := result.rows.map (fun row => result.columns.zip row),
          row_count := result.row_count },
      execution_error := none,
      success := some true }
  | .error error_msg =>
    { state with
      execution_error := some error_msg,
      previous_errors := some (state.previous_errors.getD [] ++ [error_msg]),
      previous_queries := some (state.previous_queries.getD [] ++ [sql_query]),
      attempt := some (attempt + 1),
      success := some false }

/-- Embedding of `analyze_error`: annotate `execution_error` with the
classification, suggestion and problem area, and write `attempt` back
unchanged. -/
def analyze_error (state : SQLAgentState) : SQLAgentState :=
  let error := state.execution_error.getD ""
  let sql_query := state.sql_query.getD ""
  let attempt := state.attempt.getD 1
  let analysis := ErrorAnalyzer.analyze_error error sql_query
  let problem_area := ErrorAnalyzer.extract_problem_area error sql_query
  let enhanced := error ++ "\n\n" ++ "Error Type: " ++ analysis.error_type ++ "\n" ++
    "Suggestion: " ++ analysis.suggested_fix ++ "\n" ++
    (match problem_area with
     | some p => "Problem Area: " ++ p ++ "\n"
     | none => "")
  { state with
    execution_error := some enhanced,
    attempt := some attempt }

/-- Embedding of the `format_results` node: invoke the formatter on the stored
result's `data` with the hard-coded `max_rows=100`.  (The source indexes
`state["execution_result"]` directly; the node is only reachable on success,
where the key is set, so the default value below is never read on a real
run.) -/
def format_results (state : SQLAgentState) : SQLAgentState :=
  let result := state.execution_result.getD
    { columns := [], rows := [], data := [], row_count := 0 }
  let sql_query := state.sql_query.getD ""
  { state with
    formatted_result :=
      some (.res (ResultFormatter.format_results result.data sql_query (some 100))) }

/-- Embedding of `ask_clarification`: build the terminal clarification message
from the original question and the numbered error history. -/
def ask_clarification (state : SQLAgentState) : SQLAgentState :=
  let previous_errors := state.previous_errors.getD []
  let user_query := state.user_query
  let max_attempts := state.max_attempts.getD 3
  let header := "Unable to generate a working SQL query after " ++
    toString max_attempts ++ " attempts.\n\nOriginal query: " ++ user_query ++
    "\n\nErrors encountered:\n"
  let body := previous_errors.enum.foldl
    (fun acc p => acc ++ "\n" ++ toString (p.1 + 1) ++ ". " ++ p.2) header
  let clarification := body ++
    "\n\nPlease try:\n- Rephrasing your question\n- Being more specific about column names\n- Checking if the data you're asking for exists"
  { state with formatted_result := some (.text clarification) }

end Nodes

/-! ## Routing conditions and graph wiring
(src/sql_query_agent/graph/conditions.py, workflow.py) -/

/-- The graph's nodes, plus `done` for the END sentinel. -/
inductive Node where
  | parseIntent
  | generateSql
  | validateSql
  | executeSql
  | analyzeError
  | formatResults
  | askClarification
  | done
deriving Repr, DecidableEq

namespace Conditions

/-- Embedding of `should_retry`, composed with the conditional-edge mapping of
`build_graph` (the returned label names the next node). -/
def should_retry (state : SQLAgentState) : Node :=
  let success := state.success.getD false
  let attempt := state.attempt.getD 1
  let max_attempts := state.max_attempts.getD 3
  if success then .formatResults
  else if attempt ≤ max_attempts then .analyzeError
  else .askClarification

/-- Embedding of `is_valid_sql`, composed with the conditional-edge mapping of
`build_graph`: a truthy `execution_error` carrying the `"Syntax Error:"`
prefix routes back to generation, everything else routes to execution. -/
def is_valid_sql (state : SQLAgentState) : Node :=
  let execution_error := state.execution_error.getD ""
  if pyTruthy execution_error && pyStartswith execution_error "Syntax Error:" then
    .generateSql
  else
    .executeSql

end Conditions

/-- Oracles for one workflow run: `gen k` is the raw content of the k-th LLM
call, `exec k` the outcome of the k-th `executor.execute` call, `parse` the
sqlparse model used by the validator, and `schemaResult` what
`schema_analyzer.get_schema()` returns if `parse_intent` fetches it. -/
structure Oracles where
  gen : Nat → String
  exec : Nat → Except String ExecOut
  parse : String → Except String (List String)
  schemaResult : Schema

/-- A running configuration: the node about to run, the current state, and
how many LLM / executor calls have happened so far. -/
structure Config where
  node : Node
  state : SQLAgentState
  gens : Nat
  execs : Nat

/-- One transition of the compiled graph: run the current node on the state
and follow the (conditional) edge of `build_graph`.  `done` is absorbing. -/
def step (o : Oracles) (c : Config) : Config :=
  match c.node with
  | .parseIntent =>
    { c with node := .generateSql, state := Nodes.parse_intent o.schemaResult c.state }
  | .generateSql =>
    { c with
      node := .validateSql,
      state := Nodes.generate_sql (o.gen c.gens) c.state,
      gens := c.gens + 1 }
  | .validateSql =>
    let s := Nodes.validate_sql o.parse c.state
    { c with node := Conditions.is_valid_sql s, state := s }
  | .executeSql =>
    let s := Nodes.execute_sql (o.exec c.execs) c.state
    { c with node := Conditions.should_retry s, state := s, execs := c.execs + 1 }
  | .analyzeError =>
    { c with node := .generateSql, state := Nodes.analyze_error c.state }
  | .formatResults =>
    { c with node := .done, state := Nodes.format_results c.state }
  | .askClarification =>
    { c with node := .done, state := Nodes.ask_clarification c.state }
  | .done => c

/-- The caller-supplied initial state of a run: at least `user_query`, with
`max_attempts` optional (spec section 6); every other key is absent.  (The
Streamlit entry point passes the fields explicitly with the same observable
values.) -/
def initState (user_query : String) (max_attempts : Option Nat) : SQLAgentState :=
  { user_query := user_query, sql_query := none, execution_result := none,
    execution_error := none, attempt := none, max_attempts := max_attempts,
    previous_errors := none, previous_queries := none, formatted_result := none,
    success := none, schema := none }

/-- The starting configuration of a run: entry point `parse_intent`, no
external calls made yet. -/
def initConfig (user_query : String) (max_attempts : Option Nat) : Config :=
  { node := .parseIntent, state := initState user_query max_attempts,
    gens := 0, execs := 0 }

/-- The configuration after `n` transitions of a run. -/
def runC (o : Oracles) (user_query : String) (max_attempts : Option Nat) : Nat → Config
  | 0 => initConfig user_query max_attempts
  | n + 1 => step o (runC o user_query max_attempts n)

/-- The current candidate SQL as the nodes read it. -/
def sqlD (c : Config) : String := c.state.sql_query.getD ""

/-- The `previous_queries` history as the nodes read it. -/
def pqD (c : Config) : List String := c.state.previous_queries.getD []

/-- The `previous_errors` history as the nodes read it. -/
def peD (c : Config) : List String := c.state.previous_errors.getD []

/-- The attempt counter as the nodes read it. -/
def attemptD (c : Config) : Nat := c.state.attempt.getD 1

/-- The attempt ceiling as the nodes read it. -/
def maxD (c : Config) : Nat := c.state.max_attempts.getD 3

/-- The success flag as the nodes read it. -/
def successD (c : Config) : Bool := c.state.success.getD false

/-! ## Helper lemmas -/

theorem toList_append (a b : String) : (a ++ b).toList = a.toList ++ b.toList := by
  rcases a with ⟨da⟩
  rcases b with ⟨db⟩
  rfl

theorem isPrefixOf_append_right (p a t : List Char)
    (h : p.isPrefixOf a = true) : p.isPrefixOf (a ++ t) = true := by
  induction p generalizing a with
  | nil => simp [List.isPrefixOf]
  | cons x xs ih =>
    cases a with
    | nil => simp [List.isPrefixOf] at h
    | cons y ys =>
      simp only [List.isPrefixOf, Bool.and_eq_true] at h ⊢
      exact ⟨h.1, ih ys h.2⟩

theorem pyStartswith_syntax_prefix (msg : String) :
    pyStartswith ("Syntax Error: " ++ msg) "Syntax Error:" = true := by
  unfold pyStartswith
  rw [toList_append]
  exact isPrefixOf_append_right _ _ _ (by decide)

theorem pyTruthy_syntax_prefix (msg : String) :
    pyTruthy ("Syntax Error: " ++ msg) = true := by
  unfold pyTruthy
  rw [toList_append]
  rcases msg with ⟨d⟩
  rfl

/-- When the validator succeeded, `validate_sql` cleared `execution_error`, so
the conditional edge routes to execution. -/
theorem is_valid_sql_of_error_none (s : SQLAgentState)
    (h : s.execution_error = none) : Conditions.is_valid_sql s = Node.executeSql := by
  simp [Conditions.is_valid_sql, h, pyTruthy]

/-- When `validate_sql` recorded a failure, the stored message carries the
`"Syntax Error:"` prefix, so the conditional edge routes back to generation. -/
theorem is_valid_sql_of_syntax_error (s : SQLAgentState) (msg : String)
    (h : s.execution_error = some ("Syntax Error: " ++ msg)) :
    Conditions.is_valid_sql s = Node.generateSql := by
  simp [Conditions.is_valid_sql, h, pyTruthy_syntax_prefix, pyStartswith_syntax_prefix]

/-- The graph nodes from which the run can still reach another node (the two
terminal formatting nodes and the END sentinel are excluded). -/
def liveNode : Node → Bool
  | .parseIntent => true
  | .generateSql => true
  | .validateSql => true
  | .executeSql => true
  | .analyzeError => true
  | .formatResults => false
  | .askClarification => false
  | .done => false

/-- The run invariant: the parallel histories stay the same length; as long as
the attempt ceiling is at least 1, the number of executions stays within it
(strictly below it, and below the attempt counter, while the run is live);
the error-analysis node is only ever entered with `success` cleared; and
whenever `success` is set, the error is cleared and the stored result counts
its own rows (given that the executor oracle counts correctly, which the real
executor provably does). -/
def RunInv (o : Oracles) (c : Config) : Prop :=
  (peD c).length = (pqD c).length
  ∧ (1 ≤ maxD c → c.execs ≤ maxD c ∧
      (liveNode c.node = true → c.execs < attemptD c ∧ c.execs < maxD c))
  ∧ (c.node = Node.analyzeError → successD c = false)
  ∧ ((∀ k out, o.exec k = Except.ok out → out.row_count = out.rows.length) →
      successD c = true →
        c.state.execution_error = none ∧
        ∃ r, c.state.execution_result = some r ∧ r.row_count = r.rows.length)

theorem step_maxD (o : Oracles) (c : Config) : maxD (step o c) = maxD c := by
  rcases c with ⟨node, s, gens, execs⟩
  cases node with
  | validateSql =>
    simp only [step, maxD, Nodes.validate_sql]
    split <;> rfl
  | executeSql =>
    cases hx : o.exec execs <;>
      simp [step, maxD, Nodes.execute_sql, hx, Conditions.should_retry]
  | _ =>
    simp [step, maxD, Nodes.parse_intent, Nodes.generate_sql, Nodes.analyze_error,
      Nodes.format_results, Nodes.ask_clarification]

theorem inv_init (o : Oracles) (q : String) (maxA : Option Nat) :
    RunInv o (initConfig q maxA) := by
  refine ⟨rfl, fun hm => ⟨?_, fun _ => ⟨?_, ?_⟩⟩, by simp [initConfig], fun _ hs => ?_⟩
  · simp [initConfig]
  · simp [initConfig, attemptD, initState]
  · simpa [initConfig, maxD, initState] using hm
  · simp [initConfig, successD, initState] at hs

theorem inv_step (o : Oracles) (c : Config) (h : RunInv o c) : RunInv o (step o c) := by
  obtain ⟨hlen, hbound, hana, hsucc⟩ := h
  rcases c with ⟨node, s, gens, execs⟩
  cases node with
  | parseIntent =>
    refine ⟨?_, fun hm => ?_, by simp [step], fun hx hs => ?_⟩
    · simpa [step, peD, pqD, Nodes.parse_intent] using hlen
    · have hm0 : (1 : Nat) ≤ maxD ⟨Node.parseIntent, s, gens, execs⟩ := by
        simpa [step, maxD, Nodes.parse_intent] using hm
      obtain ⟨h1, h2⟩ := hbound hm0
      obtain ⟨h3, h4⟩ := h2 (by simp [liveNode])
      refine ⟨by simpa [step, maxD, Nodes.parse_intent] using h1, fun _ => ?_⟩
      constructor
      · simpa [step, attemptD, Nodes.parse_intent] using h3
      · simpa [step, maxD, Nodes.parse_intent] using h4
    · have hs0 : successD ⟨Node.parseIntent, s, gens, execs⟩ = true := by
        simpa [step, successD, Nodes.parse_intent] using hs
      obtain ⟨he, r, hr, hrc⟩ := hsucc hx hs0
      exact ⟨by simpa [step, Nodes.parse_intent] using he,
        r, by simpa [step, Nodes.parse_intent] using hr, hrc⟩
  | generateSql =>
    refine ⟨?_, fun hm => ?_, by simp [step], fun hx hs => ?_⟩
    · simpa [step, peD, pqD, Nodes.generate_sql] using hlen
    · have hm0 : (1 : Nat) ≤ maxD ⟨Node.generateSql, s, gens, execs⟩ := by
        simpa [step, maxD, Nodes.generate_sql] using hm
      obtain ⟨h1, h2⟩ := hbound hm0
      obtain ⟨h3, h4⟩ := h2 (by simp [liveNode])
      refine ⟨by simpa [step, maxD, Nodes.generate_sql] using h1, fun _ => ?_⟩
      constructor
      · simpa [step, attemptD, Nodes.generate_sql] using h3
      · simpa [step, maxD, Nodes.generate_sql] using h4
    · have hs0 : successD ⟨Node.generateSql, s, gens, execs⟩ = true := by
        simpa [step, successD, Nodes.generate_sql] using hs
      obtain ⟨he, r, hr, hrc⟩ := hsucc hx hs0
      exact ⟨by simpa [step, Nodes.generate_sql] using he,
        r, by simpa [step, Nodes.generate_sql] using hr, hrc⟩
  | analyzeError =>
    refine ⟨?_, fun hm => ?_, by simp [step], fun hx hs => ?_⟩
    · simpa [step, peD, pqD, Nodes.analyze_error] using hlen
    · have hm0 : (1 : Nat) ≤ maxD ⟨Node.analyzeError, s, gens, execs⟩ := by
        simpa [step, maxD, Nodes.analyze_error] using hm
      obtain ⟨h1, h2⟩ := hbound hm0
      obtain ⟨h3, h4⟩ := h2 (by simp [liveNode])
      refine ⟨by simpa [step, maxD, Nodes.analyze_error] using h1, fun _ => ?_⟩
      constructor
      · simpa [step, attemptD, Nodes.analyze_error] using h3
      · simpa [step, maxD, Nodes.analyze_error] using h4
    · have hs0 : successD ⟨Node.analyzeError, s, gens, execs⟩ = true := by
        simpa [step, successD, Nodes.analyze_error] using hs
      have := hana rfl
      simp [successD] at this hs0
      rw [this] at hs0
      exact absurd hs0 (by simp)
  | formatResults =>
    refine ⟨?_, fun hm => ?_, by simp [step], fun hx hs => ?_⟩
    · simpa [step, peD, pqD, Nodes.format_results] using hlen
    · have hm0 : (1 : Nat) ≤ maxD ⟨Node.formatResults, s, gens, execs⟩ := by
        simpa [step, maxD, Nodes.format_results] using hm
      obtain ⟨h1, _⟩ := hbound hm0
      exact ⟨by simpa [step, maxD, Nodes.format_results] using h1, by simp [step, liveNode]⟩
    · have hs0 : successD ⟨Node.formatResults, s, gens, execs⟩ = true := by
        simpa [step, successD, Nodes.format_results] using hs
      obtain ⟨he, r, hr, hrc⟩ := hsucc hx hs0
      exact ⟨by simpa [step, Nodes.format_results] using he,
        r, by simpa [step, Nodes.format_results] using hr, hrc⟩
  | askClarification =>
    refine ⟨?_, fun hm => ?_, by simp [step], fun hx hs => ?_⟩
    · simpa [step, peD, pqD, Nodes.ask_clarification] using hlen
    · have hm0 : (1 : Nat) ≤ maxD ⟨Node.askClarification, s, gens, execs⟩ := by
        simpa [step, maxD, Nodes.ask_clarification] using hm
      obtain ⟨h1, _⟩ := hbound hm0
      exact ⟨by simpa [step, maxD, Nodes.ask_clarification] using h1, by simp [step, liveNode]⟩
    · have hs0 : successD ⟨Node.askClarification, s, gens, execs⟩ = true := by
        simpa [step, successD, Nodes.ask_clarification] using hs
      obtain ⟨he, r, hr, hrc⟩ := hsucc hx hs0
      exact ⟨by simpa [step, Nodes.ask_clarification] using he,
        r, by simpa [step, Nodes.ask_clarification] using hr, hrc⟩
  | done =>
    exact ⟨hlen, hbound, hana, hsucc⟩
  | validateSql =>
    rcases hv : SQLValidator.validate o.parse (s.sql_query.getD "") with ⟨b, msg⟩
    cases b with
    | true =>
      have hstate : Nodes.validate_sql o.parse s = { s with execution_error := none } := by
        simp [Nodes.validate_sql, hv]
      have hroute : Conditions.is_valid_sql { s with execution_error := none } = Node.executeSql :=
        is_valid_sql_of_error_none _ rfl
      refine ⟨?_, fun hm => ?_, ?_, fun hx hs => ?_⟩
      · simpa [step, peD, pqD, hstate] using hlen
      · have hm0 : (1 : Nat) ≤ maxD ⟨Node.validateSql, s, gens, execs⟩ := by
          simpa [step, maxD, hstate] using hm
        obtain ⟨h1, h2⟩ := hbound hm0
        obtain ⟨h3, h4⟩ := h2 (by simp [liveNode])
        refine ⟨by simpa [step, maxD, hstate] using h1, fun _ => ?_⟩
        constructor
        · simpa [step, attemptD, hstate] using h3
        · simpa [step, maxD, hstate] using h4
      · intro hn
        simp [step, hstate, hroute] at hn
      · have hs0 : successD ⟨Node.validateSql, s, gens, execs⟩ = true := by
          simpa [step, successD, hstate] using hs
        obtain ⟨_, r, hr, hrc⟩ := hsucc hx hs0
        exact ⟨by simp [step, hstate], r, by simpa [step, hstate] using hr, hrc⟩
    | false =>
      have hstate : Nodes.validate_sql o.parse s =
          { s with
            execution_error := some ("Syntax Error: " ++ msg),
            previous_errors := some (s.previous_errors.getD [] ++ ["Syntax Error: " ++ msg]),
            previous_queries := some (s.previous_queries.getD [] ++ [s.sql_query.getD ""]),
            attempt := some (s.attempt.getD 1 + 1),
            success := some false } := by
        simp [Nodes.validate_sql, hv]
      have hroute : Conditions.is_valid_sql (Nodes.validate_sql o.parse s) = Node.generateSql := by
        rw [hstate]
        exact is_valid_sql_of_syntax_error _ msg rfl
      refine ⟨?_, fun hm => ?_, ?_, fun hx hs => ?_⟩
      · simp only [step, peD, pqD, hstate, Option.getD_some] at hlen ⊢
        simp [hlen]
      · have hm0 : (1 : Nat) ≤ maxD ⟨Node.validateSql, s, gens, execs⟩ := by
          simpa [step, maxD, hstate] using hm
        obtain ⟨h1, h2⟩ := hbound hm0
        obtain ⟨h3, h4⟩ := h2 (by simp [liveNode])
        refine ⟨by simpa [step, maxD, hstate] using h1, fun _ => ?_⟩
        constructor
        · have : execs < s.attempt.getD 1 := by simpa [attemptD] using h3
          simp only [step, attemptD, hstate, Option.getD_some]
          omega
        · simpa [step, maxD, hstate] using h4
      · intro hn
        simp only [step, hroute] at hn
        cases hn
      · simp only [step, successD, hstate, Option.getD_some] at hs
        cases hs
  | executeSql =>
    cases hx : o.exec execs with
    | ok out =>
      have hstate : Nodes.execute_sql (o.exec execs) s =
          { s with
            execution_result := some
              { columns := out.columns, rows := out.rows,
                data := out.rows.map (fun row => out.columns.zip row),
                row_count := out.row_count },
            execution_error := none,
            success := some true } := by
        simp [Nodes.execute_sql, hx]
      have hroute : Conditions.should_retry (Nodes.execute_sql (o.exec execs) s) =
          Node.formatResults := by
        rw [hstate]
        simp [Conditions.should_retry]
      refine ⟨?_, fun hm => ?_, ?_, fun hx2 hs => ?_⟩
      · simpa [step, peD, pqD, hstate] using hlen
      · have hm0 : (1 : Nat) ≤ maxD ⟨Node.executeSql, s, gens, execs⟩ := by
          simpa [step, maxD, hstate] using hm
        obtain ⟨h1, h2⟩ := hbound hm0
        obtain ⟨h3, h4⟩ := h2 (by simp [liveNode])
        refine ⟨?_, ?_⟩
        · simp only [step]
          have : execs < maxD ⟨Node.executeSql, s, gens, execs⟩ := h4
          simp only [maxD] at this ⊢
          simp only [hstate]
          omega
        · simp [step, hroute, liveNode]
      · intro hn
        simp only [step, hroute] at hn
        cases hn
      · refine ⟨by simp [step, hstate], ?_⟩
        exact ⟨{ columns := out.columns, rows := out.rows,
                 data := out.rows.map (fun row => out.columns.zip row),
                 row_count := out.row_count },
               by simp [step, hstate], hx2 execs out hx⟩
    | error emsg =>
      have hstate : Nodes.execute_sql (o.exec execs) s =
          { s with
            execution_error := some emsg,
            previous_errors := some (s.previous_errors.getD [] ++ [emsg]),
            previous_queries := some (s.previous_queries.getD [] ++ [s.sql_query.getD ""]),
            attempt := some (s.attempt.getD 1 + 1),
            success := some false } := by
        simp [Nodes.execute_sql, hx]
      refine ⟨?_, fun hm => ?_, ?_, fun hx2 hs => ?_⟩
      · simp only [step, peD, pqD, hstate, Option.getD_some] at hlen ⊢
        simp [hlen]
      · have hm0 : (1 : Nat) ≤ maxD ⟨Node.executeSql, s, gens, execs⟩ := by
          simpa [step, maxD, hstate] using hm
        obtain ⟨h1, h2⟩ := hbound hm0
        obtain ⟨h3, h4⟩ := h2 (by simp [liveNode])
        have h3' : execs < s.attempt.getD 1 := by simpa [attemptD] using h3
        have h4' : execs < s.max_attempts.getD 3 := by simpa [maxD] using h4
        constructor
        · simp only [step, maxD, hstate, Option.getD_some]
          omega
        · intro hlive
          simp only [step] at hlive
          by_cases hgate : s.attempt.getD 1 + 1 ≤ s.max_attempts.getD 3
          · constructor
            · simp only [step, attemptD, hstate, Option.getD_some]
              omega
            · simp only [step, maxD, hstate, Option.getD_some]
              omega
          · exfalso
            have : Conditions.should_retry (Nodes.execute_sql (o.exec execs) s) =
                Node.askClarification := by
              rw [hstate]
              simp [Conditions.should_retry, hgate]
            rw [this] at hlive
            simp [liveNode] at hlive
      · intro _
        simp [step, successD, hstate]
      · simp only [step, successD, hstate, Option.getD_some] at hs
        cases hs

theorem inv_runC (o : Oracles) (q : String) (maxA : Option Nat) (n : Nat) :
    RunInv o (runC o q maxA n) := by
  induction n with
  | zero => exact inv_init o q maxA
  | succ n ih => exact inv_step o _ ih

theorem maxD_runC (o : Oracles) (q : String) (maxA : Option Nat) (n : Nat) :
    maxD (runC o q maxA n) = maxA.getD 3 := by
  induction n with
  | zero => rfl
  | succ n ih => rw [runC, step_maxD, ih]

/-- Boolean success test for `Except` outcomes. -/
def exceptOk {ε α : Type} : Except ε α → Bool
  | .ok _ => true
  | .error _ => false

/-- Per-step behavior of the two parallel histories: every transition either
leaves both untouched or appends exactly one entry to each; a failing
validation appends the candidate SQL and the prefixed validator message, a
failing execution appends the candidate SQL and the raised error, and every
other transition leaves both unchanged. -/
theorem step_histories (o : Oracles) (c : Config) :
    ((pqD (step o c) = pqD c ∧ peD (step o c) = peD c)
      ∨ ∃ qq ee, pqD (step o c) = pqD c ++ [qq] ∧ peD (step o c) = peD c ++ [ee])
    ∧ (∀ msg, c.node = Node.validateSql →
        SQLValidator.validate o.parse (sqlD c) = (false, msg) →
        pqD (step o c) = pqD c ++ [sqlD c]
        ∧ peD (step o c) = peD c ++ ["Syntax Error: " ++ msg])
    ∧ (∀ err, c.node = Node.executeSql → o.exec c.execs = Except.error err →
        pqD (step o c) = pqD c ++ [sqlD c] ∧ peD (step o c) = peD c ++ [err])
    ∧ ((c.node = Node.validateSql → (SQLValidator.validate o.parse (sqlD c)).1 = true) →
       (c.node = Node.executeSql → exceptOk (o.exec c.execs) = true) →
       pqD (step o c) = pqD c ∧ peD (step o c) = peD c) := by
  rcases c with ⟨node, s, gens, execs⟩
  cases node with
  | validateSql =>
    rcases hv : SQLValidator.validate o.parse (s.sql_query.getD "") with ⟨b, msg0⟩
    have hv' : SQLValidator.validate o.parse
        (sqlD ⟨Node.validateSql, s, gens, execs⟩) = (b, msg0) := hv
    cases b with
    | true =>
      refine ⟨Or.inl ⟨?_, ?_⟩, ?_, ?_, fun _ _ => ⟨?_, ?_⟩⟩
      · simp [step, pqD, Nodes.validate_sql, hv]
      · simp [step, peD, Nodes.validate_sql, hv]
      · intro msg _ heq
        rw [hv'] at heq
        simp at heq
      · intro err hn
        cases hn
      · simp [step, pqD, Nodes.validate_sql, hv]
      · simp [step, peD, Nodes.validate_sql, hv]
    | false =>
      refine ⟨Or.inr ⟨s.sql_query.getD "", "Syntax Error: " ++ msg0, ?_, ?_⟩, ?_, ?_, ?_⟩
      · simp [step, pqD, Nodes.validate_sql, hv]
      · simp [step, peD, Nodes.validate_sql, hv]
      · intro msg _ heq
        rw [hv'] at heq
        obtain rfl : msg0 = msg := by simpa using congrArg Prod.snd heq
        constructor
        · simp [step, pqD, sqlD, Nodes.validate_sql, hv]
        · simp [step, peD, Nodes.validate_sql, hv]
      · intro err hn
        cases hn
      · intro hval _
        have hb := hval rfl
        rw [hv'] at hb
        simp at hb
  | executeSql =>
    cases hx : o.exec execs with
    | ok out =>
      refine ⟨Or.inl ⟨?_, ?_⟩, ?_, ?_, fun _ _ => ⟨?_, ?_⟩⟩
      · simp [step, pqD, Nodes.execute_sql, hx]
      · simp [step, peD, Nodes.execute_sql, hx]
      · intro msg hn
        cases hn
      · intro err _ heq
        simp at heq
      · simp [step, pqD, Nodes.execute_sql, hx]
      · simp [step, peD, Nodes.execute_sql, hx]
    | error emsg =>
      refine ⟨Or.inr ⟨s.sql_query.getD "", emsg, ?_, ?_⟩, ?_, ?_, ?_⟩
      · simp [step, pqD, Nodes.execute_sql, hx]
      · simp [step, peD, Nodes.execute_sql, hx]
      · intro msg hn
        cases hn
      · intro err _ heq
        obtain rfl : emsg = err := by simpa using heq
        constructor
        · simp [step, pqD, sqlD, Nodes.execute_sql, hx]
        · simp [step, peD, Nodes.execute_sql, hx]
      · intro _ hok
        have := hok rfl
        simp [exceptOk] at this
  | parseIntent =>
    refine ⟨Or.inl ⟨?_, ?_⟩, ?_, ?_, fun _ _ => ⟨?_, ?_⟩⟩
    · simp [step, pqD, Nodes.parse_intent]
    · simp [step, peD, Nodes.parse_intent]
    · intro msg hn
      cases hn
    · intro err hn
      cases hn
    · simp [step, pqD, Nodes.parse_intent]
    · simp [step, peD, Nodes.parse_intent]
  | generateSql =>
    refine ⟨Or.inl ⟨rfl, rfl⟩, ?_, ?_, fun _ _ => ⟨rfl, rfl⟩⟩
    · intro msg hn
      cases hn
    · intro err hn
      cases hn
  | analyzeError =>
    refine ⟨Or.inl ⟨rfl, rfl⟩, ?_, ?_, fun _ _ => ⟨rfl, rfl⟩⟩
    · intro msg hn
      cases hn
    · intro err hn
      cases hn
  | formatResults =>
    refine ⟨Or.inl ⟨rfl, rfl⟩, ?_, ?_, fun _ _ => ⟨rfl, rfl⟩⟩
    · intro msg hn
      cases hn
    · intro err hn
      cases hn
  | askClarification =>
    refine ⟨Or.inl ⟨rfl, rfl⟩, ?_, ?_, fun _ _ => ⟨rfl, rfl⟩⟩
    · intro msg hn
      cases hn
    · intro err hn
      cases hn
  | done =>
    refine ⟨Or.inl ⟨rfl, rfl⟩, ?_, ?_, fun _ _ => ⟨rfl, rfl⟩⟩
    · intro msg hn
      cases hn
    · intro err hn
      cases hn

/-- Per-step behavior of the attempt counter: it never decreases, gains
exactly 1 on a failing validation and on a failing execution, and is left
unchanged by every other transition (in particular by the generation and
error-analysis nodes). -/
theorem step_attempt (o : Oracles) (c : Config) :
    attemptD c ≤ attemptD (step o c)
    ∧ (∀ msg, c.node = Node.validateSql →
        SQLValidator.validate o.parse (sqlD c) = (false, msg) →
        attemptD (step o c) = attemptD c + 1)
    ∧ (∀ err, c.node = Node.executeSql → o.exec c.execs = Except.error err →
        attemptD (step o c) = attemptD c + 1)
    ∧ (c.node = Node.generateSql ∨ c.node = Node.analyzeError →
        attemptD (step o c) = attemptD c)
    ∧ ((c.node = Node.validateSql → (SQLValidator.validate o.parse (sqlD c)).1 = true) →
       (c.node = Node.executeSql → exceptOk (o.exec c.execs) = true) →
       attemptD (step o c) = attemptD c) := by
  rcases c with ⟨node, s, gens, execs⟩
  cases node with
  | validateSql =>
    rcases hv : SQLValidator.validate o.parse (s.sql_query.getD "") with ⟨b, msg0⟩
    have hv' : SQLValidator.validate o.parse
        (sqlD ⟨Node.validateSql, s, gens, execs⟩) = (b, msg0) := hv
    cases b with
    | true =>
      refine ⟨?_, ?_, ?_, ?_, fun _ _ => ?_⟩
      · simp [step, attemptD, Nodes.validate_sql, hv]
      · intro msg _ heq
        rw [hv'] at heq
        simp at heq
      · intro err hn
        cases hn
      · rintro (hn | hn) <;> cases hn
      · simp [step, attemptD, Nodes.validate_sql, hv]
    | false =>
      refine ⟨?_, ?_, ?_, ?_, ?_⟩
      · simp [step, attemptD, Nodes.validate_sql, hv]
      · intro msg _ _
        simp [step, attemptD, Nodes.validate_sql, hv]
      · intro err hn
        cases hn
      · rintro (hn | hn) <;> cases hn
      · intro hval _
        have hb := hval rfl
        rw [hv'] at hb
        simp at hb
  | executeSql =>
    cases hx : o.exec execs with
    | ok out =>
      refine ⟨?_, ?_, ?_, ?_, fun _ _ => ?_⟩
      · simp [step, attemptD, Nodes.execute_sql, hx]
      · intro msg hn
        cases hn
      · intro err _ heq
        simp at heq
      · rintro (hn | hn) <;> cases hn
      · simp [step, attemptD, Nodes.execute_sql, hx]
    | error emsg =>
      refine ⟨?_, ?_, ?_, ?_, ?_⟩
      · simp [step, attemptD, Nodes.execute_sql, hx]
      · intro msg hn
        cases hn
      · intro err _ _
        simp [step, attemptD, Nodes.execute_sql, hx]
      · rintro (hn | hn) <;> cases hn
      · intro _ hok
        have := hok rfl
        simp [exceptOk] at this
  | parseIntent =>
    refine ⟨?_, ?_, ?_, ?_, fun _ _ => ?_⟩
    · simp [step, attemptD, Nodes.parse_intent]
    · intro msg hn
      cases hn
    · intro err hn
      cases hn
    · rintro (hn | hn) <;> cases hn
    · simp [step, attemptD, Nodes.parse_intent]
  | generateSql =>
    refine ⟨?_, ?_, ?_, fun _ => ?_, fun _ _ => ?_⟩
    · simp [step, attemptD, Nodes.generate_sql]
    · intro msg hn
      cases hn
    · intro err hn
      cases hn
    · simp [step, attemptD, Nodes.generate_sql]
    · simp [step, attemptD, Nodes.generate_sql]
  | analyzeError =>
    refine ⟨?_, ?_, ?_, fun _ => ?_, fun _ _ => ?_⟩
    · simp [step, attemptD, Nodes.analyze_error]
    · intro msg hn
      cases hn
    · intro err hn
      cases hn
    · simp [step, attemptD, Nodes.analyze_error]
    · simp [step, attemptD, Nodes.analyze_error]
  | formatResults =>
    refine ⟨le_refl _, ?_, ?_, ?_, fun _ _ => rfl⟩
    · intro msg hn
      cases hn
    · intro err hn
      cases hn
    · rintro (hn | hn) <;> cases hn
  | askClarification =>
    refine ⟨le_refl _, ?_, ?_, ?_, fun _ _ => rfl⟩
    · intro msg hn
      cases hn
    · intro err hn
      cases hn
    · rintro (hn | hn) <;> cases hn
  | done =>
    refine ⟨le_refl _, ?_, ?_, ?_, fun _ _ => rfl⟩
    · intro msg hn
      cases hn
    · intro err hn
      cases hn
    · rintro (hn | hn) <;> cases hn

/-- When every generated candidate fails validation, the run stays inside the
ParseIntent / GenerateSQL / ValidateSQL bounce: no execution ever happens, and
at the validation node the candidate is always some cleaned LLM output. -/
theorem bounce_inv (o : Oracles)
    (hfail : ∀ k, (SQLValidator.validate o.parse (Nodes.clean_sql (o.gen k))).1 = false)
    (q : String) (maxA : Option Nat) :
    ∀ n, (runC o q maxA n).execs = 0
      ∧ ((runC o q maxA n).node = Node.parseIntent
        ∨ (runC o q maxA n).node = Node.generateSql
        ∨ ((runC o q maxA n).node = Node.validateSql
            ∧ ∃ k, sqlD (runC o q maxA n) = Nodes.clean_sql (o.gen k))) := by
  intro n
  induction n with
  | zero => exact ⟨rfl, Or.inl rfl⟩
  | succ n ih =>
    obtain ⟨hex, hnode⟩ := ih
    have hstep : runC o q maxA (n + 1) = step o (runC o q maxA n) := rfl
    rcases hnode with h | h | ⟨h, k, hk⟩
    · refine ⟨?_, Or.inr (Or.inl ?_)⟩
      · rw [hstep]
        simp [step, h, hex]
      · rw [hstep]
        simp [step, h]
    · refine ⟨?_, Or.inr (Or.inr ⟨?_, (runC o q maxA n).gens, ?_⟩)⟩
      · rw [hstep]
        simp [step, h, hex]
      · rw [hstep]
        simp [step, h]
      · rw [hstep]
        simp [step, h, sqlD, Nodes.generate_sql]
    · have hb := hfail k
      rw [← hk] at hb
      rcases hv : SQLValidator.validate o.parse (sqlD (runC o q maxA n)) with ⟨b, msg⟩
      rw [hv] at hb
      simp at hb
      subst hb
      have hv2 : SQLValidator.validate o.parse
          ((runC o q maxA n).state.sql_query.getD "") = (false, msg) := hv
      have hvs : Nodes.validate_sql o.parse (runC o q maxA n).state =
          { (runC o q maxA n).state with
            execution_error := some ("Syntax Error: " ++ msg),
            previous_errors :=
              some ((runC o q maxA n).state.previous_errors.getD [] ++ ["Syntax Error: " ++ msg]),
            previous_queries :=
              some ((runC o q maxA n).state.previous_queries.getD []
                ++ [(runC o q maxA n).state.sql_query.getD ""]),
            attempt := some ((runC o q maxA n).state.attempt.getD 1 + 1),
            success := some false } := by
        simp [Nodes.validate_sql, hv2]
      refine ⟨?_, Or.inr (Or.inl ?_)⟩
      · rw [hstep]
        simp [step, h, hex]
      · rw [hstep]
        have hgoal : (step o (runC o q maxA n)).node =
            Conditions.is_valid_sql (Nodes.validate_sql o.parse (runC o q maxA n).state) := by
          simp [step, h]
        rw [hgoal, hvs]
        exact is_valid_sql_of_syntax_error _ msg rfl

/-! ## Concrete oracles used to exercise the theorems on explicit runs -/

/-- A run whose synthesizer always answers `"DROP"` (which the denylist scan
always rejects); the executor is never reached. -/
def oBad : Oracles :=
  { gen := fun _ => "DROP",
    exec := fun _ => Except.error "unreachable",
    parse := fun _ => Except.ok ["SELECT"],
    schemaResult := [] }

/-- A run whose synthesizer answers a clean one-row SELECT and whose executor
succeeds with a single row. -/
def oGood : Oracles :=
  { gen := fun _ => "SELECT 1",
    exec := fun _ => Except.ok { columns := ["a"], rows := [["1"]], row_count := 1 },
    parse := fun _ => Except.ok ["SELECT"],
    schemaResult := [] }

/-- A sqlparse model that parses everything into one statement of type
`"UNKNOWN"` (what sqlparse reports for a PRAGMA statement). -/
def parseUnknownStmt : String → Except String (List String) :=
  fun _ => Except.ok ["UNKNOWN"]

/-- A database whose every query raises `sqlite3.Error` with the message
`no such table: users`. -/
def failingDB : DBOracle :=
  { dbExists := true,
    run := fun _ => Except.error (DBErr.sqliteError "no such table: users") }

/-- A database on which every query succeeds with one row. -/
def okDB : DBOracle :=
  { dbExists := true,
    run := fun _ => Except.ok { columns := ["id"], rows := [["1"]] } }

/-! ## Claim theorems -/

/-- C9: `SchemaAnalyzer.get_schema` returns the empty mapping, and never
raises, when the database location does not exist or cannot be opened.  The
embedded function is total (Lean functions cannot raise), so the two
conjuncts cover exactly the two failure shapes: missing database file, and a
`sqlite3.Error` raised while reading. -/
theorem schema_soft_fail_C9 (db : SchemaDB) :
    (db.dbExists = false → SchemaAnalyzer.get_schema db = [])
    ∧ (∀ e, db.read = Except.error e → SchemaAnalyzer.get_schema db = []) := by
  constructor
  · intro h
    simp [SchemaAnalyzer.get_schema, h]
  · intro e h
    unfold SchemaAnalyzer.get_schema
    cases hdb : db.dbExists <;> simp [h]

/-- Witness for C9: a concrete missing database and a concrete unopenable
database both yield the empty mapping. -/
theorem schema_soft_fail_C9_witness :
    SchemaAnalyzer.get_schema { dbExists := false, read := Except.ok [] } = []
    ∧ SchemaAnalyzer.get_schema
        { dbExists := true, read := Except.error "unable to open database file" } = [] :=
  ⟨(schema_soft_fail_C9 _).1 rfl, (schema_soft_fail_C9 _).2 _ rfl⟩

/-- Counterexample for C5: on a call that raises (here a `sqlite3.Error` from
the query), the session opened by `SQLExecutor.execute` is never closed — the
source has no try/finally, so `conn.close()` on the straight-line path is
skipped when the exception propagates.  This refutes the claim that the
session is closed before returning regardless of outcome. -/
theorem executor_session_C5_cex :
    (SQLExecutor.execute failingDB "data/ecommerce.sqlite" "SELECT * FROM users").2
      = [ConnEvent.openConn true]
    ∧ ConnEvent.closeConn ∉
        (SQLExecutor.execute failingDB "data/ecommerce.sqlite" "SELECT * FROM users").2 := by
  exact ⟨rfl, by decide⟩

/-- C5 (amended): every session `SQLExecutor.execute` opens is opened
read-only and all rows are fetched eagerly into the returned value; on a
successful call the session is opened and then closed before returning, but
on a raising call the opened session is not closed (and when the database
file is missing no session is opened at all). -/
theorem executor_session_C5 (db : DBOracle) (p sql : String) :
    (∀ ro, ConnEvent.openConn ro ∈ (SQLExecutor.execute db p sql).2 → ro = true)
    ∧ (∀ out, (SQLExecutor.execute db p sql).1 = Except.ok out →
        (SQLExecutor.execute db p sql).2 = [ConnEvent.openConn true, ConnEvent.closeConn])
    ∧ (∀ e, (SQLExecutor.execute db p sql).1 = Except.error e →
        ConnEvent.closeConn ∉ (SQLExecutor.execute db p sql).2)
    ∧ (db.dbExists = false → (SQLExecutor.execute db p sql).2 = []) := by
  unfold SQLExecutor.execute
  cases hdb : db.dbExists
  · refine ⟨?_, ?_, ?_, fun _ => rfl⟩
    · intro ro hro
      simp at hro
    · intro out hout
      simp at hout
    · intro e _
      simp
  · cases hr : db.run sql with
    | ok qo =>
      refine ⟨?_, fun _ _ => rfl, ?_, ?_⟩
      · intro ro hro
        simp at hro
        exact hro
      · intro e he
        simp at he
      · intro hfalse
        simp [hdb] at hfalse
    | error derr =>
      cases derr with
      | sqliteError e0 =>
        refine ⟨?_, ?_, fun _ _ => ?_, ?_⟩
        · intro ro hro
          simp at hro
          exact hro
        · intro out hout
          simp at hout
        · simp
        · intro hfalse
          simp [hdb] at hfalse
      | otherError e0 =>
        refine ⟨?_, ?_, fun _ _ => ?_, ?_⟩
        · intro ro hro
          simp at hro
          exact hro
        · intro out hout
          simp at hout
        · simp
        · intro hfalse
          simp [hdb] at hfalse

/-- Witness for C5: on a concrete successful call the session events are
exactly open-read-only followed by close. -/
theorem executor_session_C5_witness :
    (SQLExecutor.execute okDB "data/db.sqlite" "SELECT 1").1
      = Except.ok { columns := ["id"], rows := [["1"]], row_count := 1 }
    ∧ (SQLExecutor.execute okDB "data/db.sqlite" "SELECT 1").2
      = [ConnEvent.openConn true, ConnEvent.closeConn] :=
  ⟨rfl, (executor_session_C5 okDB "data/db.sqlite" "SELECT 1").2.1 _ rfl⟩

/-- C10: the terminal formatting node hands the stored result's rows to the
formatter with the hard-coded `max_rows=100`; consequently the formatted
`data` never holds more than 100 rows, and the `truncated` flag is `true`
exactly when the result had more than 100 rows (for empty results the key is
absent, which is not `true`).  The last conjunct restates the equivalence in
terms of the result's `rows`, which in every reachable state has the same
length as `data`. -/
theorem format_cap_C10 (s : SQLAgentState) (r : ExecResult)
    (h : s.execution_result = some r) :
    Nodes.format_results s
      = { s with formatted_result := some (FormattedValue.res
            (ResultFormatter.format_results r.data (s.sql_query.getD "") (some 100))) }
    ∧ (ResultFormatter.format_results r.data (s.sql_query.getD "") (some 100)).data.length ≤ 100
    ∧ ((ResultFormatter.format_results r.data (s.sql_query.getD "") (some 100)).truncated
          = some true ↔ 100 < r.data.length)
    ∧ (r.data.length = r.rows.length →
        ((ResultFormatter.format_results r.data (s.sql_query.getD "") (some 100)).truncated
            = some true ↔ 100 < r.rows.length)) := by
  have hiff : (ResultFormatter.format_results r.data (s.sql_query.getD "") (some 100)).truncated
      = some true ↔ 100 < r.data.length := by
    unfold ResultFormatter.format_results
    cases hd : r.data with
    | nil => simp
    | cons a as => simp [hd]
  refine ⟨?_, ?_, hiff, fun hlen => by rw [← hlen]; exact hiff⟩
  · unfold Nodes.format_results
    rw [h]
    exact rfl
  · unfold ResultFormatter.format_results
    cases hd : r.data with
    | nil => simp
    | cons a as =>
      simp only [List.isEmpty_cons, Bool.false_eq_true, if_false]
      simpa using List.length_take_le 100 (a :: as)

/-- Witness for C10: the formatting node applied to a concrete state with a
stored one-row result. -/
theorem format_cap_C10_witness :
    Nodes.format_results
      { initState "count things" none with
        sql_query := some "SELECT a",
        execution_result := some
          { columns := ["a"], rows := [["1"]], data := [[("a", "1")]], row_count := 1 } }
      = { (initState "count things" none) with
          sql_query := some "SELECT a",
          execution_result := some
            { columns := ["a"], rows := [["1"]], data := [[("a", "1")]], row_count := 1 },
          formatted_result := some (FormattedValue.res
            (ResultFormatter.format_results [[("a", "1")]] "SELECT a" (some 100))) }
    ∧ (ResultFormatter.format_results [[("a", "1")]] "SELECT a" (some 100)).data.length ≤ 100
    ∧ ((ResultFormatter.format_results [[("a", "1")]] "SELECT a" (some 100)).truncated
          = some true ↔ 100 < ([[("a", "1")]] : List RowDict).length) := by
  have h := format_cap_C10
    { initState "count things" none with
      sql_query := some "SELECT a",
      execution_result := some
        { columns := ["a"], rows := [["1"]], data := [[("a", "1")]], row_count := 1 } }
    { columns := ["a"], rows := [["1"]], data := [[("a", "1")]], row_count := 1 }
    rfl
  exact ⟨h.1, h.2.1, h.2.2.1⟩

/-! ## Specification-side validator (for the refinement claim C6) -/

namespace ValidatorSpec

/-- First-failure-wins combinator over an ordered rule list, as the spec
phrases it: the first rule that fires decides the outcome, otherwise the
query is valid with an empty message. -/
def firstFailure : List (Option (Bool × String)) → Bool × String
  | [] => (true, "")
  | some r :: _ => r
  | none :: rest => firstFailure rest

/-- Spec rule 1: empty or whitespace-only text is invalid. -/
def rule_empty (sql : String) : Option (Bool × String) :=
  if (stripChars sql.toList).isEmpty then some (false, "Empty query") else none

/-- Spec rule 2: case-insensitive substring match against the fixed denylist,
identifying the matched keyword (first keyword in list order). -/
def rule_denylist (sql : String) : Option (Bool × String) :=
  (SQLValidator.dangerous_keywords.find? (fun kw => strContainsSub (pyUpper sql) kw)).map
    (fun kw => (false, "Dangerous operation detected: " ++ kw ++
      ". Only SELECT queries are allowed."))

/-- Spec rule 3: a parse failure is invalid with the parser's error text. -/
def rule_parse_failure (parse : String → Except String (List String))
    (sql : String) : Option (Bool × String) :=
  match parse sql with
  | .error e => some (false, "SQL parsing error: " ++ e)
  | .ok [] => some (false, "Unable to parse SQL query")
  | .ok (_ :: _) => none

/-- Spec rule 4 (amended): a parsed statement whose type is not SELECT is
invalid; the message begins with "Only SELECT queries are allowed." and also
reports the found statement type. -/
def rule_select_only (parse : String → Except String (List String))
    (sql : String) : Option (Bool × String) :=
  match parse sql with
  | .ok (t :: _) =>
    if t != "SELECT" then
      some (false, "Only SELECT queries are allowed. Found: " ++ t)
    else
      none
  | _ => none

/-- The validator as the spec words it: the four rules checked in order,
first failure wins, otherwise `(true, "")`. -/
def validate_spec (parse : String → Except String (List String))
    (sql : String) : Bool × String :=
  firstFailure [rule_empty sql, rule_denylist sql,
    rule_parse_failure parse sql, rule_select_only parse sql]

end ValidatorSpec

/-- Counterexample for C6: on a parsed non-SELECT statement the source
returns the message `"Only SELECT queries are allowed. Found: <type>"`, not
the exact message `"Only SELECT queries are allowed."` the claim states.
A PRAGMA statement (which sqlparse types as UNKNOWN) exhibits this. -/
theorem validator_rules_C6_cex :
    SQLValidator.validate parseUnknownStmt "PRAGMA table_info(users)"
      = (false, "Only SELECT queries are allowed. Found: UNKNOWN")
    ∧ "Only SELECT queries are allowed. Found: UNKNOWN"
        ≠ "Only SELECT queries are allowed." := by
  exact ⟨by decide, by decide⟩

/-- C6 (amended): `SQLValidator.validate` checks its rules in the spec's
fixed order with first failure winning — empty check, denylist scan with the
matched keyword identified, parse-failure check with the parser error, and
the statement-type check whose message begins with "Only SELECT queries are
allowed." and reports the found type — and otherwise returns `(true, "")`.
Stated as equality with the rule-list validator written from the spec. -/
theorem validator_rules_C6 (parse : String → Except String (List String))
    (sql : String) :
    SQLValidator.validate parse sql = ValidatorSpec.validate_spec parse sql := by
  by_cases he : stripChars sql.data = []
  · simp [SQLValidator.validate, ValidatorSpec.validate_spec, ValidatorSpec.rule_empty,
      he, ValidatorSpec.firstFailure]
  · cases hd : SQLValidator.dangerous_keywords.find?
        (fun kw => strContainsSub (pyUpper sql) kw) with
    | some kw =>
      simp [SQLValidator.validate, ValidatorSpec.validate_spec, ValidatorSpec.rule_empty,
        ValidatorSpec.rule_denylist, he, hd, ValidatorSpec.firstFailure]
    | none =>
      cases hp : parse sql with
      | error e =>
        simp [SQLValidator.validate, ValidatorSpec.validate_spec, ValidatorSpec.rule_empty,
          ValidatorSpec.rule_denylist, ValidatorSpec.rule_parse_failure, he, hd, hp,
          ValidatorSpec.firstFailure]
      | ok l =>
        cases l with
        | nil =>
          simp [SQLValidator.validate, ValidatorSpec.validate_spec, ValidatorSpec.rule_empty,
            ValidatorSpec.rule_denylist, ValidatorSpec.rule_parse_failure, he, hd, hp,
            ValidatorSpec.firstFailure]
        | cons t ts =>
          by_cases ht : t = "SELECT"
          · simp [SQLValidator.validate, ValidatorSpec.validate_spec, ValidatorSpec.rule_empty,
              ValidatorSpec.rule_denylist, ValidatorSpec.rule_parse_failure,
              ValidatorSpec.rule_select_only, he, hd, hp, ht, ValidatorSpec.firstFailure]
          · simp [SQLValidator.validate, ValidatorSpec.validate_spec, ValidatorSpec.rule_empty,
              ValidatorSpec.rule_denylist, ValidatorSpec.rule_parse_failure,
              ValidatorSpec.rule_select_only, he, hd, hp, ht, ValidatorSpec.firstFailure]

/-- Counterexample for C7: on an empty row list the formatter's returned
record carries no `truncated` key at all (the claim requires a boolean
`truncated` field for every input), and its message is
`"Query executed successfully but returned no results."`, not the claim's
exact text `"executed successfully but returned no results"`. -/
theorem formatter_contract_C7_cex :
    (ResultFormatter.format_results ([] : List RowDict) "SELECT * FROM customers"
        (some 100)).truncated = none
    ∧ (ResultFormatter.format_results ([] : List RowDict) "SELECT * FROM customers"
        (some 100)).message ≠ "executed successfully but returned no results" := by
  exact ⟨rfl, by decide⟩

/-- C7 (amended): for a positive row cap `m`, `format_results` returns
`row_count` equal to the number of input rows and `data` truncated to `m`
rows; the `truncated` key is absent on empty input and otherwise boolean,
true exactly when more than `m` rows came in; and the message is exactly
"Query executed successfully but returned no results." for 0 rows,
"Query returned 1 row." for 1 row,
"Query returned N rows. Displaying first m rows." when truncated, and
"Query returned N rows." otherwise. -/
theorem formatter_contract_C7 (results : List RowDict) (q : String) (m : Nat)
    (hm : 0 < m) :
    (ResultFormatter.format_results results q (some m)).row_count = results.length
    ∧ (ResultFormatter.format_results results q (some m)).data = results.take m
    ∧ (ResultFormatter.format_results results q (some m)).truncated
        = (if results.isEmpty then none else some (decide (m < results.length)))
    ∧ (ResultFormatter.format_results results q (some m)).message
        = (if results.length = 0 then
             "Query executed successfully but returned no results."
           else if results.length = 1 then
             "Query returned 1 row."
           else if m < results.length then
             "Query returned " ++ toString results.length ++
               " rows. Displaying first " ++ toString m ++ " rows."
           else
             "Query returned " ++ toString results.length ++ " rows.") := by
  obtain ⟨k, rfl⟩ : ∃ k, m = k + 1 := ⟨m - 1, by omega⟩
  cases results with
  | nil =>
    refine ⟨rfl, by simp [ResultFormatter.format_results], ?_, ?_⟩
    · simp [ResultFormatter.format_results]
    · simp [ResultFormatter.format_results]
  | cons a as =>
    refine ⟨by simp [ResultFormatter.format_results], ?_, ?_, ?_⟩
    · simp [ResultFormatter.format_results]
    · simp [ResultFormatter.format_results]
    · cases as with
      | nil =>
        have hk : ¬ (k + 1 < 1) := by omega
        simp [ResultFormatter.format_results, ResultFormatter.create_summary_message, hk]
      | cons b bs =>
        by_cases hlt : k + 1 < (a :: b :: bs).length
        · simp [ResultFormatter.format_results, ResultFormatter.create_summary_message,
            hlt, pyOptNatStr]
        · simp [ResultFormatter.format_results, ResultFormatter.create_summary_message,
            hlt, pyOptNatStr]

/-- Witness for C7: two rows with cap 1 are truncated with the exact
truncation message. -/
theorem formatter_contract_C7_witness :
    (0 : Nat) < 1
    ∧ (ResultFormatter.format_results [[("a", "1")], [("a", "2")]] "SELECT a"
        (some 1)).truncated = some true
    ∧ (ResultFormatter.format_results [[("a", "1")], [("a", "2")]] "SELECT a"
        (some 1)).message = "Query returned 2 rows. Displaying first 1 rows." := by
  have h := formatter_contract_C7 [[("a", "1")], [("a", "2")]] "SELECT a" 1 (by decide)
  refine ⟨by decide, ?_, ?_⟩
  · rw [h.2.2.1]
    decide
  · rw [h.2.2.2]
    decide

/-- C1: after every transition of every run the two histories have equal
length; each transition either leaves both histories unchanged or appends
exactly one entry to each (append-only); a failing validation appends the
failed SQL and the error it produced (with the "Syntax Error: " prefix the
node adds), a failing execution appends the failed SQL and the raised error,
and every other transition leaves both histories unchanged. -/
theorem history_invariant_C1 (o : Oracles) (q : String) (maxA : Option Nat) (n : Nat) :
    (peD (runC o q maxA (n + 1))).length = (pqD (runC o q maxA (n + 1))).length
    ∧ ((pqD (runC o q maxA (n + 1)) = pqD (runC o q maxA n)
        ∧ peD (runC o q maxA (n + 1)) = peD (runC o q maxA n))
      ∨ ∃ qq ee, pqD (runC o q maxA (n + 1)) = pqD (runC o q maxA n) ++ [qq]
          ∧ peD (runC o q maxA (n + 1)) = peD (runC o q maxA n) ++ [ee])
    ∧ (∀ msg, (runC o q maxA n).node = Node.validateSql →
        SQLValidator.validate o.parse (sqlD (runC o q maxA n)) = (false, msg) →
        pqD (runC o q maxA (n + 1)) = pqD (runC o q maxA n) ++ [sqlD (runC o q maxA n)]
        ∧ peD (runC o q maxA (n + 1)) = peD (runC o q maxA n) ++ ["Syntax Error: " ++ msg])
    ∧ (∀ err, (runC o q maxA n).node = Node.executeSql →
        o.exec (runC o q maxA n).execs = Except.error err →
        pqD (runC o q maxA (n + 1)) = pqD (runC o q maxA n) ++ [sqlD (runC o q maxA n)]
        ∧ peD (runC o q maxA (n + 1)) = peD (runC o q maxA n) ++ [err])
    ∧ (((runC o q maxA n).node = Node.validateSql →
          (SQLValidator.validate o.parse (sqlD (runC o q maxA n))).1 = true) →
       ((runC o q maxA n).node = Node.executeSql →
          exceptOk (o.exec (runC o q maxA n).execs) = true) →
       pqD (runC o q maxA (n + 1)) = pqD (runC o q maxA n)
       ∧ peD (runC o q maxA (n + 1)) = peD (runC o q maxA n)) := by
  have hstep := step_histories o (runC o q maxA n)
  exact ⟨(inv_runC o q maxA (n + 1)).1, hstep.1, hstep.2.1, hstep.2.2.1, hstep.2.2.2⟩

/-- Witness for C1: in the concrete run whose synthesizer always answers
`"DROP"`, step 3 is a failing validation and appends exactly the failed SQL
and its prefixed error to the two histories. -/
theorem history_invariant_C1_witness :
    (runC oBad "list all users" (some 1) 2).node = Node.validateSql
    ∧ SQLValidator.validate oBad.parse (sqlD (runC oBad "list all users" (some 1) 2))
        = (false, "Dangerous operation detected: DROP. Only SELECT queries are allowed.")
    ∧ (pqD (runC oBad "list all users" (some 1) 3)
        = pqD (runC oBad "list all users" (some 1) 2)
          ++ [sqlD (runC oBad "list all users" (some 1) 2)]
      ∧ peD (runC oBad "list all users" (some 1) 3)
        = peD (runC oBad "list all users" (some 1) 2)
          ++ ["Syntax Error: "
              ++ "Dangerous operation detected: DROP. Only SELECT queries are allowed."]) := by
  refine ⟨by decide, by decide, ?_⟩
  exact (history_invariant_C1 oBad "list all users" (some 1) 2).2.2.1
    "Dangerous operation detected: DROP. Only SELECT queries are allowed."
    (by decide) (by decide)

/-- C2: across every run the attempt counter is monotonically non-decreasing
(never decremented or reset); it gains exactly 1 on a failing validation and
exactly 1 on a failing execution, is untouched by the generation and
error-analysis nodes, and is unchanged by every other transition. -/
theorem attempt_counter_C2 (o : Oracles) (q : String) (maxA : Option Nat) (n : Nat) :
    attemptD (runC o q maxA n) ≤ attemptD (runC o q maxA (n + 1))
    ∧ (∀ msg, (runC o q maxA n).node = Node.validateSql →
        SQLValidator.validate o.parse (sqlD (runC o q maxA n)) = (false, msg) →
        attemptD (runC o q maxA (n + 1)) = attemptD (runC o q maxA n) + 1)
    ∧ (∀ err, (runC o q maxA n).node = Node.executeSql →
        o.exec (runC o q maxA n).execs = Except.error err →
        attemptD (runC o q maxA (n + 1)) = attemptD (runC o q maxA n) + 1)
    ∧ ((runC o q maxA n).node = Node.generateSql
        ∨ (runC o q maxA n).node = Node.analyzeError →
        attemptD (runC o q maxA (n + 1)) = attemptD (runC o q maxA n))
    ∧ (((runC o q maxA n).node = Node.validateSql →
          (SQLValidator.validate o.parse (sqlD (runC o q maxA n))).1 = true) →
       ((runC o q maxA n).node = Node.executeSql →
          exceptOk (o.exec (runC o q maxA n).execs) = true) →
       attemptD (runC o q maxA (n + 1)) = attemptD (runC o q maxA n)) :=
  step_attempt o (runC o q maxA n)

/-- Witness for C2: in the always-"DROP" run, the failing validation at step 3
bumps the attempt counter by exactly 1, and the generation step before it
left the counter unchanged. -/
theorem attempt_counter_C2_witness :
    ((runC oBad "list all users" (some 1) 2).node = Node.validateSql
      ∧ attemptD (runC oBad "list all users" (some 1) 3)
          = attemptD (runC oBad "list all users" (some 1) 2) + 1)
    ∧ ((runC oBad "list all users" (some 1) 1).node = Node.generateSql
      ∧ attemptD (runC oBad "list all users" (some 1) 2)
          = attemptD (runC oBad "list all users" (some 1) 1)) := by
  constructor
  · refine ⟨by decide, ?_⟩
    exact (attempt_counter_C2 oBad "list all users" (some 1) 2).2.1
      "Dangerous operation detected: DROP. Only SELECT queries are allowed."
      (by decide) (by decide)
  · refine ⟨by decide, ?_⟩
    exact (attempt_counter_C2 oBad "list all users" (some 1) 1).2.2.2.1 (Or.inl (by decide))

/-- C3: in every run whose attempt ceiling is at least 1 (the spec requires
`max_attempts ≥ 1`), the execute node runs at most `max_attempts` times — the
only termination check is the attempt gate `should_retry` after execution.
The second conjunct shows generation is not so bounded: in the concrete
always-"DROP" run with `max_attempts = 1`, after 8 transitions the generation
node has already run more than `max_attempts` times, because validation
failures route back to generation unconditionally without passing the gate. -/
theorem execution_bound_C3 :
    (∀ (o : Oracles) (q : String) (maxA : Option Nat) (n : Nat),
        1 ≤ maxA.getD 3 → (runC o q maxA n).execs ≤ maxA.getD 3)
    ∧ maxD (runC oBad "list all users" (some 1) 8)
        < (runC oBad "list all users" (some 1) 8).gens := by
  constructor
  · intro o q maxA n hm
    have h := ((inv_runC o q maxA n).2.1 (by rw [maxD_runC]; exact hm)).1
    rwa [maxD_runC] at h
  · decide

/-- Witness for C3: the bound applied to the always-"DROP" run with ceiling 1
after 9 transitions. -/
theorem execution_bound_C3_witness :
    (1 : Nat) ≤ (some 1 : Option Nat).getD 3
    ∧ (runC oBad "list all users" (some 1) 9).execs ≤ (some 1 : Option Nat).getD 3 :=
  ⟨by decide, execution_bound_C3.1 oBad "list all users" (some 1) 9 (by decide)⟩

/-- Counterexample for C4: in the concrete run whose synthesizer always
produces invalid SQL (`"DROP"`, rejected by the denylist) with
`max_attempts = 1`, after 20 transitions the run has not reached any terminal
state, the execute node has never run (so the `should_retry` gate never
fired), and the attempt counter is already far beyond `max_attempts` — the
claimed termination mechanism never engages. -/
theorem invalid_loop_C4_cex :
    (runC oBad "list all users" (some 1) 20).node ≠ Node.done
    ∧ (runC oBad "list all users" (some 1) 20).execs = 0
    ∧ maxD (runC oBad "list all users" (some 1) 20)
        < attemptD (runC oBad "list all users" (some 1) 20) := by
  refine ⟨by decide, by decide, by decide⟩

/-- C4 (amended): when the synthesizer always produces syntactically invalid
SQL, the run never terminates — it bounces between GenerateSQL and
ValidateSQL forever, never reaching ExecuteSQL (and hence never reaching the
`should_retry` gate or a terminal state), because the validation-failure edge
routes back to generation unconditionally with no attempt check.  The claimed
bound applies only once some candidate passes validation. -/
theorem invalid_loop_C4 (o : Oracles)
    (hfail : ∀ k, (SQLValidator.validate o.parse (Nodes.clean_sql (o.gen k))).1 = false)
    (q : String) (maxA : Option Nat) (n : Nat) :
    (runC o q maxA n).node ≠ Node.done ∧ (runC o q maxA n).execs = 0 := by
  obtain ⟨hex, hnode⟩ := bounce_inv o hfail q maxA n
  refine ⟨?_, hex⟩
  rcases hnode with h | h | ⟨h, _⟩ <;> rw [h] <;> decide

/-- Witness for C4: the always-"DROP" oracle satisfies the always-invalid
hypothesis, and the amended theorem applies to its run. -/
theorem invalid_loop_C4_witness :
    (∀ k, (SQLValidator.validate oBad.parse (Nodes.clean_sql (oBad.gen k))).1 = false)
    ∧ ((runC oBad "list all users" (some 1) 5).node ≠ Node.done
      ∧ (runC oBad "list all users" (some 1) 5).execs = 0) := by
  have hf : ∀ k, (SQLValidator.validate oBad.parse (Nodes.clean_sql (oBad.gen k))).1 = false :=
    fun _ =>
      (by decide : (SQLValidator.validate oBad.parse (Nodes.clean_sql "DROP")).1 = false)
  exact ⟨hf, invalid_loop_C4 oBad hf "list all users" (some 1) 5⟩

/-- C8: in every reachable state of a run, if `success` is set then
`execution_error` is cleared and `execution_result` is set with `row_count`
equal to the length of its rows.  The first conjunct shows the executor
oracle hypothesis is satisfied by the embedded `SQLExecutor.execute`, whose
successful results always count their own rows. -/
theorem success_invariant_C8 (o : Oracles) (q : String) (maxA : Option Nat) (n : Nat)
    (hexec : ∀ k out, o.exec k = Except.ok out → out.row_count = out.rows.length) :
    (∀ (db : DBOracle) (p sql : String) (out : ExecOut),
        (SQLExecutor.execute db p sql).1 = Except.ok out → out.row_count = out.rows.length)
    ∧ (successD (runC o q maxA n) = true →
        (runC o q maxA n).state.execution_error = none
        ∧ ∃ r, (runC o q maxA n).state.execution_result = some r
            ∧ r.row_count = r.rows.length) := by
  constructor
  · intro db p sql out h
    unfold SQLExecutor.execute at h
    cases hdb : db.dbExists
    · rw [hdb] at h
      simp at h
    · rw [hdb] at h
      cases hr : db.run sql with
      | ok qo =>
        rw [hr] at h
        simp at h
        rw [← h]
      | error derr =>
        rw [hr] at h
        cases derr <;> simp at h
  · exact fun hs => (inv_runC o q maxA n).2.2.2 hexec hs

/-- Witness for C8: the concrete successful run reaches `success = true`
after 4 transitions with a cleared error and a stored one-row result counting
its own rows. -/
theorem success_invariant_C8_witness :
    successD (runC oGood "show one row" (some 3) 4) = true
    ∧ ((runC oGood "show one row" (some 3) 4).state.execution_error = none
      ∧ ∃ r, (runC oGood "show one row" (some 3) 4).state.execution_result = some r
          ∧ r.row_count = r.rows.length) := by
  have hx : ∀ k out, oGood.exec k = Except.ok out → out.row_count = out.rows.length := by
    intro k out h
    simp [oGood] at h
    rw [← h]
    rfl
  exact ⟨by decide,
    (success_invariant_C8 oGood "show one row" (some 3) 4 hx).2 (by decide)⟩
